import Mathlib

/-!
Shallow embedding of the SensorTower dashboard's API-client core
(`src/api/sensortower_client.py`), the usage monitor constants
(`check_usage.py`), and the batched sales-estimate fetch
(`scripts/data_refresh.py`), together with proofs of the caching,
usage-ledger, quota and batching properties stated in the specification.

Machine conventions: wall-clock instants are abstract `Nat` ticks (`now`),
ISO timestamps are strings whose first seven characters are the
`"YYYY-MM"` month key (`datetime.isoformat()` versus `strftime("%Y-%m")`),
and the md5 hex digest used for cache keys is modelled as an injective
encoding, so a key is represented by the hashed string itself.
-/

namespace SensorTower

/-- Minimal JSON value model for upstream payloads and cache files. -/
inductive JsonVal where
  | null
  | bool (b : Bool)
  | num (n : Int)
  | str (s : String)
  | arr (xs : List JsonVal)
  | obj (fields : List (String × JsonVal))

/-- JSON null loads as Python `None`.  A Python expression returning a
JSON value therefore returns `None` exactly when the value is null;
`none` models Python `None`, `some d` a non-`None` value. -/
def noneIfNull : JsonVal → Option JsonVal
  | .null => none
  | d => some d

/-- Python `d.get(k, dflt)` on a dict: the stored value when the key is
present (a stored JSON null having loaded as Python `None` = `.null`),
the default when absent.  `.get` on a non-dict receiver raises before
this applies; callers match on the object shape first. -/
def dictGet (fields : List (String × JsonVal)) (k : String)
    (dflt : JsonVal) : JsonVal :=
  (List.lookup k fields).getD dflt

/-- Python `str(x)` on a JSON scalar, as used by `",".join(str(x) for x in app_ids)`. -/
def pyStr : JsonVal → String
  | .num n => toString n
  | .str s => s
  | .bool b => if b then "True" else "False"
  | .null => "None"
  | _ => ""   -- str() of a nested list/dict; ids are scalars in this repo

/-- Python-level failures surfaced by the client. -/
inductive PyErr where
  | valueError (msg : String)
  | jsonDecodeError
  | keyError (k : String)
  | typeError
  | attributeError
  | transportError
  | httpStatusError (code : Nat)
  deriving DecidableEq, Repr

/-- Outcome of one physical HTTP attempt (`requests.get`): either an
exception inside the transport, or a completed response with a status
code and a JSON body.  `raise_for_status` raises exactly for 4xx/5xx. -/
inductive UpstreamOutcome where
  | transportFailure
  | status (code : Nat) (body : JsonVal)

/-- The upstream API, as a function from endpoint and query parameters to
the outcome of the HTTP attempt. -/
abbrev Upstream := String → List (String × String) → UpstreamOutcome

/-- One cache file on disk: its mtime plus the result of `json.load` on
its contents; `Except.error ()` models corrupt / partially written JSON. -/
structure CacheFile where
  mtime : Nat
  parsed : Except Unit JsonVal

/-- The cache directory: one file per cache key. -/
abbrev CacheStore := List (String × CacheFile)

/-- `data/api_usage_log.json`: `{"requests": [...], "monthly_counts": {...}}`.
A request record `{"timestamp": ..., "endpoint": ...}` is the pair
`(timestamp, endpoint)`. -/
structure UsageLog where
  requests : List (String × String)
  monthly_counts : List (String × Nat)
  deriving DecidableEq, Repr

/-- `sort_keys=True` entry order: compare parameter entries by key. -/
def key_le (a b : String × String) : Prop := a.1 ≤ b.1

instance : DecidableRel key_le := fun a b =>
  inferInstanceAs (Decidable (a.1 ≤ b.1))

/-- `json.dumps(params, sort_keys=True)` for a string-valued parameter
dict: serialize the entries in sorted-key order. -/
def dumps_sorted (params : List (String × String)) : String :=
  let sorted := params.insertionSort key_le
  "\x7b" ++ String.intercalate ", "
      (sorted.map (fun kv => "\x22" ++ kv.1 ++ "\x22: \x22" ++ kv.2 ++ "\x22"))
    ++ "\x7d"

/-- `_get_cache_key`: md5 of `f"{endpoint}:{json.dumps(params, sort_keys=True)}"`.
The hex digest is modelled as an injective encoding of the hashed string. -/
def get_cache_key (endpoint : String) (params : List (String × String)) : String :=
  endpoint ++ ":" ++ dumps_sorted params

/-- Python-dict increment used by `_log_request`:
`if k not in m: m[k] = 0` then `m[k] += 1` (append when absent,
update in place when present). -/
def bump_month : List (String × Nat) → String → List (String × Nat)
  | [], k => [(k, 1)]
  | (k', v) :: rest, k =>
    if k' = k then (k', v + 1) :: rest else (k', v) :: bump_month rest k

/-- `_log_request` restricted to the ledger itself: append a
`(timestamp, endpoint)` record and bump the month counter derived from
the timestamp (`strftime("%Y-%m")` = first seven chars of the ISO form). -/
def log_request (log : UsageLog) (endpoint : String) (now_iso : String) : UsageLog :=
  { requests := log.requests ++ [(now_iso, endpoint)],
    monthly_counts := bump_month log.monthly_counts (now_iso.take 7) }

/-- `get_monthly_usage`: O(1) lookup in `monthly_counts`, absent month
reads as 0. -/
def get_monthly_usage (log : UsageLog) (month : String) : Nat :=
  (List.lookup month log.monthly_counts).getD 0

/-- Soft quota limit, from `check_usage.py`. -/
def soft_limit : Nat := 2000

/-- Hard quota limit, from `check_usage.py`. -/
def hard_limit : Nat := 3000

/-- In-memory client state: cache directory, usage ledger, and the
instance counters.  `upstream_calls` counts physical HTTP attempts and
`warnings` counts printed quota warnings (instrumentation of the two
observable effects the spec talks about). -/
structure ClientState where
  cache : CacheStore
  usage_log : UsageLog
  request_count : Nat
  last_request_time : Nat
  cache_ttl : Nat
  upstream_calls : Nat
  warnings : Nat

/-- `_get_from_cache` (including `_is_cache_valid`): an absent or stale
file returns `None` (`.ok none`).  A present, fresh file is opened and
`json.load`ed — with no exception handler, so corrupt content raises
`json.JSONDecodeError`; then `cached["data"]` raises `KeyError` on a
dict without the key and `TypeError` on a non-dict, and otherwise the
stored value is returned — a stored JSON null being Python `None`, the
same value as the miss sentinel (`noneIfNull`). -/
def get_from_cache (cache : CacheStore) (ttl now : Nat) (cache_key : String) :
    Except PyErr (Option JsonVal) :=
  match List.lookup cache_key cache with
  | none => .ok none
  | some f =>
    if now - f.mtime < ttl then
      match f.parsed with
      | .error _ => .error .jsonDecodeError
      | .ok v =>
        match v with
        | .obj fields =>
          match List.lookup "data" fields with
          | none => .error (.keyError "data")
          | some d => .ok (noneIfNull d)
        | _ => .error .typeError
    else .ok none

/-- File-system write: replace the file at `cache_key`, or create it. -/
def store_file : CacheStore → String → CacheFile → CacheStore
  | [], k, f => [(k, f)]
  | (k', f') :: rest, k, f =>
    if k' = k then (k, f) :: rest else (k', f') :: store_file rest k f

/-- `_save_to_cache`: write `{"cached_at": ..., "data": data}` under the
key; the file's mtime is the write instant. -/
def save_to_cache (cache : CacheStore) (cache_key : String) (d : JsonVal)
    (now : Nat) (now_iso : String) : CacheStore :=
  store_file cache cache_key
    ⟨now, .ok (.obj [("cached_at", .str now_iso), ("data", d)])⟩

/-- `_make_request`.  The rate-limit sleep is elided (it only suspends,
touching no tracked state).  On a cache hit the state is returned
untouched; otherwise the quota warning is evaluated, the HTTP attempt is
made, and only a successful (non-4xx/5xx) response is logged to the
usage ledger (`_log_request`, which also bumps `request_count`) and
written to the cache. -/
def make_request (upstream : Upstream) (st : ClientState)
    (endpoint : String) (params : List (String × String))
    (use_cache : Bool) (now : Nat) (now_iso : String) :
    Except PyErr JsonVal × ClientState :=
  let cache_key := get_cache_key endpoint params
  let cached : Except PyErr (Option JsonVal) :=
    if use_cache then get_from_cache st.cache st.cache_ttl now cache_key
    else .ok none
  match cached with
  | .error e => (.error e, st)
  | .ok (some d) => (.ok d, st)
  | .ok none =>
    let usage := get_monthly_usage st.usage_log (now_iso.take 7)
    let warned := if usage ≥ 2000 then st.warnings + 1 else st.warnings
    match upstream endpoint params with
    | .transportFailure =>
      (.error .transportError,
        { st with warnings := warned, upstream_calls := st.upstream_calls + 1 })
    | .status code body =>
      let st₁ := { st with warnings := warned,
                           upstream_calls := st.upstream_calls + 1,
                           last_request_time := now }
      if code < 400 then
        let st₂ := { st₁ with
          usage_log := log_request st₁.usage_log endpoint now_iso,
          request_count := st₁.request_count + 1,
          cache := save_to_cache st₁.cache cache_key body now now_iso }
        (.ok body, st₂)
      else
        (.error (.httpStatusError code), st₁)

/-- `get_app_details`: join the ids into one comma-separated `app_ids`
parameter, issue one batched request to `{device}/apps`, and return
`data.get("apps", [])` — which raises `AttributeError` when the payload
is not a dict. -/
def get_app_details (upstream : Upstream) (st : ClientState)
    (app_ids : List JsonVal) (device : String) (use_cache : Bool)
    (now : Nat) (now_iso : String) :
    Except PyErr JsonVal × ClientState :=
  let ids_str := String.intercalate "," (app_ids.map pyStr)
  let params := [("app_ids", ids_str)]
  let endpoint := device ++ "/apps"
  match make_request upstream st endpoint params use_cache now now_iso with
  | (.error e, st') => (.error e, st')
  | (.ok d, st') =>
    match d with
    | .obj fields => (.ok (dictGet fields "apps" (.arr [])), st')
    | _ => (.error .attributeError, st')

/-- `app_ids[:limit] if limit else app_ids`: the slice applied when
`limit` is truthy (not `None` and non-zero). -/
def sliced_ids (ids : List JsonVal) (limit : Option Nat) : List JsonVal :=
  match limit with
  | some n => if n ≠ 0 then ids.take n else ids
  | none => ids

/-- `limit or 100`: the batch bound of the details call. -/
def details_cap (limit : Option Nat) : Nat :=
  match limit with
  | some n => if n ≠ 0 then n else 100
  | none => 100

/-- `get_top_apps`: fetch `{device}/ranking`, truncate the id list when
`limit` is truthy, and when `resolve_details` is set and the id list is
non-empty issue exactly one batched `get_app_details` call over
`app_ids[:limit or 100]`.  `date?` is `None` replaced by today's date.
A non-dict payload raises `AttributeError` at `data.get("ranking", [])`;
a non-list `"ranking"` value would fail the slice in Python (modelled
as a `typeError`). -/
def get_top_apps (upstream : Upstream) (st : ClientState)
    (category chart_type : String) (date? : Option String)
    (country device : String) (limit : Option Nat)
    (use_cache resolve_details : Bool)
    (today : String) (now : Nat) (now_iso : String) :
    Except PyErr JsonVal × ClientState :=
  let date := date?.getD today
  let params := [("category", category), ("chart_type", chart_type),
                 ("date", date), ("country", country)]
  let endpoint := device ++ "/ranking"
  match make_request upstream st endpoint params use_cache now now_iso with
  | (.error e, st₁) => (.error e, st₁)
  | (.ok d, st₁) =>
    match d with
    | .obj fields =>
      match dictGet fields "ranking" (.arr []) with
      | .arr ids =>
        let app_ids := sliced_ids ids limit
        let base : List (String × JsonVal) :=
          [("category", dictGet fields "category" .null),
           ("chart_type", dictGet fields "chart_type" .null),
           ("country", dictGet fields "country" .null),
           ("date", dictGet fields "date" .null),
           ("ranking", .arr app_ids)]
        if resolve_details && !app_ids.isEmpty then
          let cap := details_cap limit
          match get_app_details upstream st₁ (app_ids.take cap) device use_cache now now_iso with
          | (.error e, st₂) => (.error e, st₂)
          | (.ok apps, st₂) => (.ok (.obj (base ++ [("apps", apps)])), st₂)
        else
          (.ok (.obj base), st₁)
      | _ => (.error .typeError, st₁)
    | _ => (.error .attributeError, st₁)

/-- `get_sales_estimates`: `raise ValueError` when both id lists are
falsy, otherwise build the parameter dict (dates defaulting to today /
thirty days ago, empty-string `country` being falsy and omitted) and
issue one request.  `None` id lists and empty ones are both falsy, so
both are modelled by `[]`. -/
def get_sales_estimates (upstream : Upstream) (st : ClientState)
    (app_ids publisher_ids : List Int)
    (device date_granularity : String)
    (start_date? end_date? : Option String)
    (country? : Option String) (use_cache : Bool)
    (today month_ago : String) (now : Nat) (now_iso : String) :
    Except PyErr JsonVal × ClientState :=
  if app_ids = [] ∧ publisher_ids = [] then
    (.error (.valueError "Either app_ids or publisher_ids required"), st)
  else
    let end_date := end_date?.getD today
    let start_date := start_date?.getD month_ago
    let params₀ := [("date_granularity", date_granularity),
                    ("start_date", start_date), ("end_date", end_date)]
    let params₁ :=
      if app_ids ≠ [] then
        params₀ ++ [("app_ids", String.intercalate "," (app_ids.map toString))]
      else params₀
    let params₂ :=
      if publisher_ids ≠ [] then
        params₁ ++ [("publisher_ids", String.intercalate "," (publisher_ids.map toString))]
      else params₁
    let params := match country? with
      | some c => if c ≠ "" then params₂ ++ [("country", c)] else params₂
      | none => params₂
    make_request upstream st (device ++ "/sales_report_estimates") params use_cache now now_iso

/-! ### `scripts/data_refresh.py`: batched sales-estimate fetch -/

/-- One estimate record as read by `fetch_sales_estimates`: the values
of `record.get("aid")`, `record.get("iu")` and `record.get("ir")`
(`none` models both a missing key and a JSON `null`, which the code's
`or 0` maps to 0 alike). -/
structure SalesRecord where
  aid : Option Int
  iu : Option Int
  ir : Option Int

/-- A response from `client.get_sales_estimates` as `fetch_sales_estimates`
consumes it: either a bare list of records, or a dict wrapping the
record list under `"data"`/`"estimates"` — both branches aggregate the
same way. -/
inductive SalesResponse where
  | asList (records : List SalesRecord)
  | asDict (records : List SalesRecord)

/-- The record list a response contributes to aggregation. -/
def SalesResponse.records : SalesResponse → List SalesRecord
  | .asList rs => rs
  | .asDict rs => rs

/-- The per-app accumulator created by the `defaultdict`: all six
period fields start at 0. -/
structure PeriodTotals where
  downloads_1m : Int := 0
  revenue_1m : Int := 0
  downloads_3m : Int := 0
  revenue_3m : Int := 0
  downloads_6m : Int := 0
  revenue_6m : Int := 0

/-- The all-zero accumulator. -/
def PeriodTotals.zero : PeriodTotals := {}

/-- Add one record's downloads and (already converted) revenue to the
fields of the given period (`downloads_{p}` / `revenue_{p}`). -/
def PeriodTotals.add (t : PeriodTotals) (period : String) (dl rev : Int) : PeriodTotals :=
  if period = "1m" then
    { t with downloads_1m := t.downloads_1m + dl, revenue_1m := t.revenue_1m + rev }
  else if period = "3m" then
    { t with downloads_3m := t.downloads_3m + dl, revenue_3m := t.revenue_3m + rev }
  else if period = "6m" then
    { t with downloads_6m := t.downloads_6m + dl, revenue_6m := t.revenue_6m + rev }
  else t

/-- `results[aid][key] += ...` on the `defaultdict`: update the existing
entry in place, or create a fresh zero entry and update it. -/
def upd_results : List (Int × PeriodTotals) → Int → String → Int → Int →
    List (Int × PeriodTotals)
  | [], aid, p, dl, rev => [(aid, PeriodTotals.zero.add p dl rev)]
  | (a, t) :: rest, aid, p, dl, rev =>
    if a = aid then (a, t.add p dl rev) :: rest
    else (a, t) :: upd_results rest aid p dl rev

/-- Process one record for one period: skipped when `record.get("aid")`
is falsy (`None` or 0); otherwise `downloads += record.get("iu", 0) or 0`
and `revenue += int((record.get("ir", 0) or 0) / 100)` — truncating
division by 100 converts cents to whole currency units. -/
def apply_record (period : String) (results : List (Int × PeriodTotals))
    (r : SalesRecord) : List (Int × PeriodTotals) :=
  match r.aid with
  | some a =>
    if a ≠ 0 then
      upd_results results a period (r.iu.getD 0) (Int.tdiv (r.ir.getD 0) 100)
    else results
  | none => results

/-- `range(0, len(app_ids_list), 100)` slicing: partition into
consecutive batches of at most 100 ids. -/
def batches_of_100 (l : List Int) : List (List Int) :=
  if h : l = [] then []
  else l.take 100 :: batches_of_100 (l.drop 100)
termination_by l.length
decreasing_by
  have hl : 0 < l.length := List.length_pos.mpr h
  simp only [List.length_drop]
  omega

/-- `fetch_sales_estimates` (`scripts/data_refresh.py`).  The client
call is abstracted as an oracle from the period key and the batch to the
call's outcome (the period's date range is a function of the period key,
so no information is lost); `Except.error` models the exception caught
by the per-batch handler, which logs and continues.  Returns the final
`dict(results)` together with the list of issued `(period, batch)`
requests, outer loop over periods, inner loop over batches. -/
def fetch_sales_estimates
    (call : String → List Int → Except Unit SalesResponse)
    (app_ids_list : List Int) :
    List (Int × PeriodTotals) × List (String × List Int) :=
  let batches := batches_of_100 app_ids_list
  let issued := ["1m", "3m", "6m"].flatMap (fun p => batches.map (fun b => (p, b)))
  let results := issued.foldl
    (fun acc pb =>
      match call pb.1 pb.2 with
      | .error _ => acc
      | .ok resp => resp.records.foldl (fun acc' r => apply_record pb.1 acc' r) acc)
    []
  (results, issued)

/-! ### Canonical cache keys (claim C4) -/

instance : IsTotal (String × String) key_le := ⟨fun a b => le_total a.1 b.1⟩

instance : IsTrans (String × String) key_le := ⟨fun _ _ _ h h' => le_trans h h'⟩

/-- Strict key order on parameter entries, used to identify the two
sorted serializations. -/
def key_lt (a b : String × String) : Prop := a.1 < b.1

instance : IsAntisymm (String × String) key_lt :=
  ⟨fun _ _ h h' => absurd (lt_trans h h') (lt_irrefl _)⟩

/-- Two parameter dicts with the same entries (in any order) sort to
the same canonical entry list. -/
theorem insertionSort_key_eq (p₁ p₂ : List (String × String))
    (hperm : p₁.Perm p₂) (hnodup : (p₁.map Prod.fst).Nodup) :
    p₁.insertionSort key_le = p₂.insertionSort key_le := by
  have hp₁ := List.perm_insertionSort key_le p₁
  have hp₂ := List.perm_insertionSort key_le p₂
  have hnodup₂ : (p₂.map Prod.fst).Nodup := (hperm.map Prod.fst).nodup hnodup
  have hne₁ : (p₁.insertionSort key_le).Pairwise (fun a b => a.1 ≠ b.1) :=
    (List.Perm.pairwise_iff (fun {_ _} h => Ne.symm h) hp₁).mpr
      (List.pairwise_map.mp hnodup)
  have hne₂ : (p₂.insertionSort key_le).Pairwise (fun a b => a.1 ≠ b.1) :=
    (List.Perm.pairwise_iff (fun {_ _} h => Ne.symm h) hp₂).mpr
      (List.pairwise_map.mp hnodup₂)
  have hlt₁ : (p₁.insertionSort key_le).Pairwise key_lt :=
    ((List.sorted_insertionSort key_le p₁).and hne₁).imp
      (fun h => lt_of_le_of_ne h.1 h.2)
  have hlt₂ : (p₂.insertionSort key_le).Pairwise key_lt :=
    ((List.sorted_insertionSort key_le p₂).and hne₂).imp
      (fun h => lt_of_le_of_ne h.1 h.2)
  exact List.eq_of_perm_of_sorted (hp₁.trans (hperm.trans hp₂.symm)) hlt₁ hlt₂

/-- C4: for every endpoint and every pair of parameter dictionaries
containing the same key-value pairs in different insertion orders,
`_get_cache_key` produces the same cache key, so semantically identical
requests collide to the same cache entry. -/
theorem cache_key_order_independent (endpoint : String)
    (p₁ p₂ : List (String × String))
    (hperm : p₁.Perm p₂) (hnodup : (p₁.map Prod.fst).Nodup) :
    get_cache_key endpoint p₁ = get_cache_key endpoint p₂ := by
  unfold get_cache_key dumps_sorted
  rw [insertionSort_key_eq p₁ p₂ hperm hnodup]

/-- C4 witness: the ranking parameters in their two natural orders
produce the same key. -/
theorem cache_key_order_independent_witness :
    ([("chart_type", "topfreeapplications"), ("category", "6014")].Perm
       [("category", "6014"), ("chart_type", "topfreeapplications")]) ∧
    ([(("chart_type", "topfreeapplications") : String × String),
       ("category", "6014")].map Prod.fst).Nodup ∧
    get_cache_key "ios/ranking"
        [("chart_type", "topfreeapplications"), ("category", "6014")] =
      get_cache_key "ios/ranking"
        [("category", "6014"), ("chart_type", "topfreeapplications")] :=
  ⟨by decide, by decide,
    cache_key_order_independent "ios/ranking" _ _ (by decide) (by decide)⟩

/-! ### Usage ledger (claim C5) -/

/-- Reading `bump_month`: the bumped month's counter gains exactly one,
every other month's value is unchanged. -/
theorem bump_month_lookup (counts : List (String × Nat)) (k m : String) :
    (List.lookup m (bump_month counts k)).getD 0 =
      (List.lookup m counts).getD 0 + (if k = m then 1 else 0) := by
  induction counts with
  | nil =>
    by_cases h : k = m
    · subst h; simp [bump_month]
    · have hb : (m == k) = false := beq_eq_false_iff_ne.mpr (Ne.symm h)
      simp [bump_month, List.lookup, hb, h]
  | cons hd tl ih =>
    obtain ⟨k', v⟩ := hd
    by_cases hk : k' = k
    · subst hk
      by_cases hm : k' = m
      · subst hm; simp [bump_month]
      · have hb : (m == k') = false := beq_eq_false_iff_ne.mpr (Ne.symm hm)
        simp [bump_month, List.lookup, hb, hm]
    · by_cases hm : k' = m
      · have h' : ¬ k = m := fun h => hk (hm.trans h.symm)
        have hb : (m == k') = true := beq_iff_eq.mpr hm.symm
        simp [bump_month, hk, List.lookup, hb, h']
      · have hb : (m == k') = false := beq_eq_false_iff_ne.mpr (Ne.symm hm)
        simp [bump_month, hk, List.lookup, hb, ih]

/-- The spec's ledger invariant: each month's counter equals the number
of request records whose timestamp falls in that month. -/
def ledger_invariant (log : UsageLog) : Prop :=
  ∀ m : String,
    get_monthly_usage log m =
      (log.requests.filter (fun r => r.1.take 7 == m)).length

/-- A sequence of `_log_request` calls, each given as
`(endpoint, timestamp)`. -/
def log_many (log : UsageLog) (calls : List (String × String)) : UsageLog :=
  calls.foldl (fun l c => log_request l c.1 c.2) log

/-- One `_log_request` call changes exactly the record's own month
counter, by one. -/
theorem log_request_usage (log : UsageLog) (e ts m : String) :
    get_monthly_usage (log_request log e ts) m =
      get_monthly_usage log m + (if ts.take 7 = m then 1 else 0) :=
  bump_month_lookup log.monthly_counts (ts.take 7) m

/-- One `_log_request` call preserves the ledger invariant. -/
theorem log_request_preserves_invariant (log : UsageLog) (e ts : String)
    (h : ledger_invariant log) :
    ledger_invariant (log_request log e ts) := by
  intro m
  rw [log_request_usage, h m]
  by_cases hm : ts.take 7 = m <;>
    simp [log_request, List.filter_append, hm]

/-- C5: the ledger invariant (`monthly_counts[month]` equals the number
of request records in that month) is preserved by every `_log_request`
call; a run of calls adds to a month's counter exactly the number of
calls whose timestamp falls in that month (so N same-month calls read
back as N more, and a month none of them touch — e.g. the prior month
after a boundary crossing — is unchanged); an absent month key reads
as 0. -/
theorem ledger_monthly_counts
    (log : UsageLog) (calls : List (String × String)) (m : String)
    (hinv : ledger_invariant log) :
    ledger_invariant (log_many log calls) ∧
    get_monthly_usage (log_many log calls) m =
      get_monthly_usage log m +
        (calls.filter (fun c => c.2.take 7 == m)).length ∧
    (List.lookup m log.monthly_counts = none → get_monthly_usage log m = 0) := by
  refine ⟨?_, ?_, ?_⟩
  · induction calls generalizing log with
    | nil => exact hinv
    | cons c cs ih =>
      exact ih _ (log_request_preserves_invariant _ _ _ hinv)
  · clear hinv
    induction calls generalizing log with
    | nil => simp [log_many]
    | cons c cs ih =>
      have hstep : log_many log (c :: cs) =
          log_many (log_request log c.1 c.2) cs := rfl
      rw [hstep, ih, log_request_usage]
      by_cases hm : c.2.take 7 = m <;> simp [hm] <;> omega
  · intro h
    simp [get_monthly_usage, h]

/-- C5 witness: two January requests logged into the fresh ledger give
the invariant, a count of two for January, and the absent-month read. -/
theorem ledger_monthly_counts_witness :
    ledger_invariant (log_many ⟨[], []⟩
      [("ios/ranking", "2025-01-15T10:00:00"), ("ios/apps", "2025-01-15T10:00:05")]) ∧
    get_monthly_usage (log_many ⟨[], []⟩
        [("ios/ranking", "2025-01-15T10:00:00"), ("ios/apps", "2025-01-15T10:00:05")])
        "2025-01" =
      get_monthly_usage ⟨[], []⟩ "2025-01" +
        ([("ios/ranking", "2025-01-15T10:00:00"),
          ("ios/apps", "2025-01-15T10:00:05")].filter
            (fun c => c.2.take 7 == "2025-01")).length ∧
    (List.lookup "2025-01" (UsageLog.mk [] []).monthly_counts = none →
      get_monthly_usage ⟨[], []⟩ "2025-01" = 0) :=
  ledger_monthly_counts ⟨[], []⟩
    [("ios/ranking", "2025-01-15T10:00:00"), ("ios/apps", "2025-01-15T10:00:05")]
    "2025-01" (fun _ => rfl)

/-! ### Corrupt cache entries (claim C3) -/

/-- C3 counterexample: an unexpired cache entry whose backing file holds
corrupt JSON is NOT treated as a miss — `_get_from_cache` propagates the
parse failure to the caller instead of returning absent. -/
theorem corrupt_cache_entry_not_a_miss :
    get_from_cache [("k", ⟨0, Except.error ()⟩)] 10 5 "k" =
        .error .jsonDecodeError ∧
    get_from_cache [("k", ⟨0, Except.error ()⟩)] 10 5 "k" ≠ .ok none :=
  ⟨rfl, fun h => by simp [get_from_cache, List.lookup] at h⟩

/-- C3 amended: an unexpired cache entry whose backing file does not
parse as the expected structure is not treated as a miss — the
exception reaches the caller: corrupt JSON raises the decode error,
well-formed JSON that is a dict without the `"data"` key raises
`KeyError`, and a non-dict raises `TypeError` at `cached["data"]`. -/
theorem get_from_cache_raises_not_miss (cache : CacheStore)
    (ttl now : Nat) (k : String) :
    (∀ f, List.lookup k cache = some f → now - f.mtime < ttl →
      f.parsed = .error () →
      get_from_cache cache ttl now k = .error .jsonDecodeError) ∧
    (∀ f fields, List.lookup k cache = some f → now - f.mtime < ttl →
      f.parsed = .ok (.obj fields) → List.lookup "data" fields = none →
      get_from_cache cache ttl now k = .error (.keyError "data")) ∧
    (∀ f v, List.lookup k cache = some f → now - f.mtime < ttl →
      f.parsed = .ok v → (∀ fields, v ≠ .obj fields) →
      get_from_cache cache ttl now k = .error .typeError) := by
  refine ⟨?_, ?_, ?_⟩
  · intro f hf hfresh hc
    unfold get_from_cache
    rw [hf]
    simp [hfresh, hc]
  · intro f fields hf hfresh hp hg
    unfold get_from_cache
    rw [hf]
    simp [hfresh, hp, hg]
  · intro f v hf hfresh hp hv
    unfold get_from_cache
    rw [hf]
    simp only [hfresh, if_true, hp]

/-- C3 amended witness: a fresh corrupt entry raises the decode error;
a fresh dict entry without `"data"` raises the key error; a fresh
non-dict entry raises the type error. -/
theorem get_from_cache_raises_not_miss_witness :
    (∀ f, List.lookup "c" [("c", (⟨2, Except.error ()⟩ : CacheFile))] = some f →
      (5 : Nat) - f.mtime < 10 → f.parsed = Except.error () →
      get_from_cache [("c", ⟨2, Except.error ()⟩)] 10 5 "c" =
        .error .jsonDecodeError) ∧
    (∀ f fields,
      List.lookup "c" [("c", (⟨2, Except.error ()⟩ : CacheFile))] = some f →
      (5 : Nat) - f.mtime < 10 → f.parsed = Except.ok (.obj fields) →
      List.lookup "data" fields = none →
      get_from_cache [("c", ⟨2, Except.error ()⟩)] 10 5 "c" =
        .error (.keyError "data")) ∧
    (∀ f v, List.lookup "c" [("c", (⟨2, Except.error ()⟩ : CacheFile))] = some f →
      (5 : Nat) - f.mtime < 10 → f.parsed = Except.ok v →
      (∀ fields, v ≠ .obj fields) →
      get_from_cache [("c", ⟨2, Except.error ()⟩)] 10 5 "c" =
        .error .typeError) :=
  get_from_cache_raises_not_miss [("c", ⟨2, Except.error ()⟩)] 10 5 "c"

/-! ### Request gateway lemmas -/

/-- Writing a file and reading the same key back yields that file. -/
theorem store_file_lookup_self (c : CacheStore) (k : String) (f : CacheFile) :
    List.lookup k (store_file c k f) = some f := by
  induction c with
  | nil => simp [store_file, List.lookup]
  | cons hd tl ih =>
    obtain ⟨k', f'⟩ := hd
    by_cases h : k' = k
    · subst h; simp [store_file, List.lookup]
    · have hb : (k == k') = false := beq_eq_false_iff_ne.mpr (Ne.symm h)
      simp [store_file, h, List.lookup, hb, ih]

/-- `_make_request` on a cache hit returns the cached payload and
leaves the state untouched. -/
theorem make_request_hit (upstream : Upstream) (st : ClientState)
    (e : String) (p : List (String × String)) (now : Nat) (iso : String)
    (d : JsonVal)
    (h : get_from_cache st.cache st.cache_ttl now (get_cache_key e p) = .ok (some d)) :
    make_request upstream st e p true now iso = (.ok d, st) := by
  simp [make_request, h]

/-- `_make_request` on a miss (or with the cache bypassed) followed by
an HTTP success: the body comes back, the attempt and the possible
quota warning are counted, the ledger is bumped and the payload is
written to the cache. -/
theorem make_request_miss_ok (upstream : Upstream) (st : ClientState)
    (e : String) (p : List (String × String)) (use_cache : Bool)
    (now : Nat) (iso : String) (code : Nat) (body : JsonVal)
    (hmiss : use_cache = true →
      get_from_cache st.cache st.cache_ttl now (get_cache_key e p) = .ok none)
    (hup : upstream e p = .status code body) (hcode : code < 400) :
    make_request upstream st e p use_cache now iso =
      (.ok body,
        { cache := save_to_cache st.cache (get_cache_key e p) body now iso,
          usage_log := log_request st.usage_log e iso,
          request_count := st.request_count + 1,
          last_request_time := now,
          cache_ttl := st.cache_ttl,
          upstream_calls := st.upstream_calls + 1,
          warnings :=
            if get_monthly_usage st.usage_log (iso.take 7) ≥ 2000 then
              st.warnings + 1
            else st.warnings }) := by
  have hcached :
      (if use_cache then
        get_from_cache st.cache st.cache_ttl now (get_cache_key e p)
      else .ok none) = .ok none := by
    cases use_cache
    · rfl
    · exact hmiss rfl
  simp [make_request, hcached, hup, hcode]

/-- C2 counterexample: a 304 response is non-2xx, yet
`raise_for_status` raises only for 4xx/5xx, so `_make_request` treats
it as success — it returns the body, records the request (count and
month), and writes the cache entry, contradicting the claim's "non-2xx
⇒ propagate and record nothing". -/
theorem status_3xx_records_usage :
    (300 : Nat) ≤ 304 ∧
    (make_request (fun _ _ => .status 304 (.str "x"))
        ⟨[], ⟨[], []⟩, 0, 0, 10, 0, 0⟩ "ios/ranking" [] true 5
        "2025-01-15T10:00:00").1 = .ok (.str "x") ∧
    (make_request (fun _ _ => .status 304 (.str "x"))
        ⟨[], ⟨[], []⟩, 0, 0, 10, 0, 0⟩ "ios/ranking" [] true 5
        "2025-01-15T10:00:00").2.request_count = 1 ∧
    get_monthly_usage
      (make_request (fun _ _ => .status 304 (.str "x"))
        ⟨[], ⟨[], []⟩, 0, 0, 10, 0, 0⟩ "ios/ranking" [] true 5
        "2025-01-15T10:00:00").2.usage_log "2025-01" = 1 ∧
    (make_request (fun _ _ => .status 304 (.str "x"))
        ⟨[], ⟨[], []⟩, 0, 0, 10, 0, 0⟩ "ios/ranking" [] true 5
        "2025-01-15T10:00:00").2.cache ≠ [] :=
  ⟨by decide, rfl, rfl, rfl, fun h => by simp [make_request, get_from_cache,
    save_to_cache, store_file, List.lookup, get_monthly_usage] at h⟩

/-- C2 amended: when the HTTP attempt fails — a transport failure, or a
status ≥ 400, exactly the statuses `raise_for_status` raises for —
`_make_request` propagates the failure, and the usage ledger (request
records, monthly counts, `request_count`) and the cache store are
unmodified.  A non-raising non-2xx response (3xx) is treated like
success: it records usage and writes the cache. -/
theorem failed_request_records_nothing (upstream : Upstream) (st : ClientState)
    (e : String) (p : List (String × String)) (use_cache : Bool)
    (now : Nat) (iso : String)
    (hmiss : use_cache = true →
      get_from_cache st.cache st.cache_ttl now (get_cache_key e p) = .ok none)
    (hfail : upstream e p = .transportFailure ∨
      ∃ code body, upstream e p = .status code body ∧ 400 ≤ code) :
    (upstream e p = .transportFailure →
      (make_request upstream st e p use_cache now iso).1 = .error .transportError) ∧
    (∀ code body, upstream e p = .status code body → 400 ≤ code →
      (make_request upstream st e p use_cache now iso).1 =
        .error (.httpStatusError code)) ∧
    (make_request upstream st e p use_cache now iso).2.usage_log = st.usage_log ∧
    (make_request upstream st e p use_cache now iso).2.request_count =
      st.request_count ∧
    (make_request upstream st e p use_cache now iso).2.cache = st.cache := by
  have hcached :
      (if use_cache then
        get_from_cache st.cache st.cache_ttl now (get_cache_key e p)
      else .ok none) = .ok none := by
    cases use_cache
    · rfl
    · exact hmiss rfl
  rcases hfail with hf | ⟨code, body, hf, hcode⟩
  · simp [make_request, hcached, hf]
  · have hnl : ¬ code < 400 := not_lt.mpr hcode
    simp [make_request, hcached, hf, hnl]

/-- C2 witness: a transport failure on a fresh client records nothing. -/
theorem failed_request_records_nothing_witness :
    ((fun (_ : String) (_ : List (String × String)) =>
        UpstreamOutcome.transportFailure) "ios/ranking" [] =
          UpstreamOutcome.transportFailure →
      (make_request (fun _ _ => .transportFailure)
          ⟨[], ⟨[], []⟩, 0, 0, 10, 0, 0⟩ "ios/ranking" [] true 5
          "2025-01-15T10:00:00").1 = .error .transportError) ∧
    (∀ code body,
      (fun (_ : String) (_ : List (String × String)) =>
        UpstreamOutcome.transportFailure) "ios/ranking" [] =
          UpstreamOutcome.status code body → 400 ≤ code →
      (make_request (fun _ _ => .transportFailure)
          ⟨[], ⟨[], []⟩, 0, 0, 10, 0, 0⟩ "ios/ranking" [] true 5
          "2025-01-15T10:00:00").1 = .error (.httpStatusError code)) ∧
    (make_request (fun _ _ => .transportFailure)
        ⟨[], ⟨[], []⟩, 0, 0, 10, 0, 0⟩ "ios/ranking" [] true 5
        "2025-01-15T10:00:00").2.usage_log = (⟨[], []⟩ : UsageLog) ∧
    (make_request (fun _ _ => .transportFailure)
        ⟨[], ⟨[], []⟩, 0, 0, 10, 0, 0⟩ "ios/ranking" [] true 5
        "2025-01-15T10:00:00").2.request_count = 0 ∧
    (make_request (fun _ _ => .transportFailure)
        ⟨[], ⟨[], []⟩, 0, 0, 10, 0, 0⟩ "ios/ranking" [] true 5
        "2025-01-15T10:00:00").2.cache = [] :=
  failed_request_records_nothing (fun _ _ => .transportFailure)
    ⟨[], ⟨[], []⟩, 0, 0, 10, 0, 0⟩ "ios/ranking" [] true 5
    "2025-01-15T10:00:00" (fun _ => rfl) (Or.inl rfl)

/-! ### Quota check (claim C7) -/

/-- C7 counterexample: at a monthly usage of 2000 — strictly below the
hard limit (3000, `check_usage.py`) — `_make_request` already prints
the quota warning, so the warning does not fire "exactly when at/over
the hard limit". -/
theorem quota_warning_fires_below_hard_limit :
    (2000 : Nat) < hard_limit ∧
    (make_request (fun _ _ => .status 200 .null)
        ⟨[], ⟨[], [("2025-01", 2000)]⟩, 0, 0, 10, 0, 0⟩
        "ios/ranking" [] false 5 "2025-01-15T10:00:00").2.warnings = 1 := by
  constructor
  · decide
  · rfl

/-- C7 amended: before sending, `_make_request` reads the current
month's usage and always proceeds with the HTTP attempt regardless of
usage (the quota is advisory, never blocking); the warning fires
exactly when usage is at/over 2000 — the soft limit of
`check_usage.py` — not the hard limit; in particular it does fire
at/over the hard limit. -/
theorem quota_advisory_warns_at_soft_limit (upstream : Upstream)
    (st : ClientState) (e : String) (p : List (String × String))
    (use_cache : Bool) (now : Nat) (iso : String)
    (hmiss : use_cache = true →
      get_from_cache st.cache st.cache_ttl now (get_cache_key e p) = .ok none) :
    (make_request upstream st e p use_cache now iso).2.upstream_calls =
      st.upstream_calls + 1 ∧
    ((make_request upstream st e p use_cache now iso).2.warnings =
        st.warnings + 1 ↔
      soft_limit ≤ get_monthly_usage st.usage_log (iso.take 7)) ∧
    (hard_limit ≤ get_monthly_usage st.usage_log (iso.take 7) →
      (make_request upstream st e p use_cache now iso).2.warnings =
        st.warnings + 1) := by
  have hcached :
      (if use_cache then
        get_from_cache st.cache st.cache_ttl now (get_cache_key e p)
      else .ok none) = .ok none := by
    cases use_cache
    · rfl
    · exact hmiss rfl
  have hsoft : soft_limit = 2000 := rfl
  have hhard : hard_limit = 3000 := rfl
  by_cases husage : get_monthly_usage st.usage_log (iso.take 7) ≥ 2000 <;>
  · cases hout : upstream e p with
    | transportFailure =>
      simp [make_request, hcached, hout, husage, hsoft, hhard] <;> omega
    | status code body =>
      by_cases hcode : code < 400 <;>
        simp [make_request, hcached, hout, husage, hcode, hsoft, hhard] <;>
        omega

/-- C7 amended witness: a fresh client at usage 2000 proceeds and
warns. -/
theorem quota_advisory_warns_at_soft_limit_witness :
    (make_request (fun _ _ => .status 200 .null)
        ⟨[], ⟨[], [("2025-01", 2000)]⟩, 0, 0, 10, 0, 0⟩
        "ios/ranking" [] true 5 "2025-01-15T10:00:00").2.upstream_calls = 0 + 1 ∧
    ((make_request (fun _ _ => .status 200 .null)
        ⟨[], ⟨[], [("2025-01", 2000)]⟩, 0, 0, 10, 0, 0⟩
        "ios/ranking" [] true 5 "2025-01-15T10:00:00").2.warnings = 0 + 1 ↔
      soft_limit ≤ get_monthly_usage ⟨[], [("2025-01", 2000)]⟩
        ("2025-01-15T10:00:00".take 7)) ∧
    (hard_limit ≤ get_monthly_usage ⟨[], [("2025-01", 2000)]⟩
        ("2025-01-15T10:00:00".take 7) →
      (make_request (fun _ _ => .status 200 .null)
        ⟨[], ⟨[], [("2025-01", 2000)]⟩, 0, 0, 10, 0, 0⟩
        "ios/ranking" [] true 5 "2025-01-15T10:00:00").2.warnings = 0 + 1) :=
  quota_advisory_warns_at_soft_limit (fun _ _ => .status 200 .null)
    ⟨[], ⟨[], [("2025-01", 2000)]⟩, 0, 0, 10, 0, 0⟩
    "ios/ranking" [] true 5 "2025-01-15T10:00:00" (fun _ => rfl)

/-! ### Cache idempotence (claim C1) -/

/-- A non-null stored value returned through Python is not `None`. -/
theorem noneIfNull_of_ne (d : JsonVal) (h : d ≠ .null) :
    noneIfNull d = some d := by
  cases d with
  | null => exact absurd rfl h
  | bool b => rfl
  | num n => rfl
  | str s => rfl
  | arr xs => rfl
  | obj fields => rfl

/-- C1 counterexample: a JSON null payload is cached, but reads back as
Python `None` — the very miss sentinel — so the second call is not a
cache hit: it makes a second network call and the month is counted
twice, not once. -/
theorem null_payload_counted_twice :
    (make_request (fun _ _ => .status 200 .null)
        (make_request (fun _ _ => .status 200 .null)
          ⟨[], ⟨[], []⟩, 0, 0, 10, 0, 0⟩
          "ios/ranking" [] true 3 "2025-01-15T10:00:00").2
        "ios/ranking" [] true 4 "2025-01-15T11:00:00").2.upstream_calls = 2 ∧
    get_monthly_usage
      (make_request (fun _ _ => .status 200 .null)
        (make_request (fun _ _ => .status 200 .null)
          ⟨[], ⟨[], []⟩, 0, 0, 10, 0, 0⟩
          "ios/ranking" [] true 3 "2025-01-15T10:00:00").2
        "ios/ranking" [] true 4 "2025-01-15T11:00:00").2.usage_log
      "2025-01" = 2 :=
  ⟨rfl, rfl⟩

/-- C1 amended: for every non-null payload, with `use_cache=True` a
miss followed by an upstream success returns the payload and increments
the month counter once; a second call for the same request within the
entry's TTL returns the identical payload from the cache with the state
unchanged — no network call, no further usage increment, the counter
bumped exactly once across the two calls.  (A null payload is excluded:
it reads back as `None`, the miss sentinel, and is re-fetched.) -/
theorem fetch_twice_idempotent_cached (upstream : Upstream)
    (st : ClientState) (e : String) (p : List (String × String))
    (now₁ now₂ : Nat) (iso₁ iso₂ : String) (code : Nat) (body : JsonVal)
    (hbody : body ≠ .null)
    (hmiss : get_from_cache st.cache st.cache_ttl now₁ (get_cache_key e p) = .ok none)
    (hup : upstream e p = .status code body) (hcode : code < 400)
    (httl : now₂ - now₁ < st.cache_ttl) :
    (make_request upstream st e p true now₁ iso₁).1 = .ok body ∧
    make_request upstream (make_request upstream st e p true now₁ iso₁).2
        e p true now₂ iso₂ =
      (.ok body, (make_request upstream st e p true now₁ iso₁).2) ∧
    get_monthly_usage (make_request upstream st e p true now₁ iso₁).2.usage_log
        (iso₁.take 7) =
      get_monthly_usage st.usage_log (iso₁.take 7) + 1 ∧
    (make_request upstream st e p true now₁ iso₁).2.upstream_calls =
      st.upstream_calls + 1 := by
  have h1 := make_request_miss_ok upstream st e p true now₁ iso₁ code body
    (fun _ => hmiss) hup hcode
  rw [h1]
  have hhit : get_from_cache
      (save_to_cache st.cache (get_cache_key e p) body now₁ iso₁)
      st.cache_ttl now₂ (get_cache_key e p) = .ok (some body) := by
    unfold get_from_cache save_to_cache
    rw [store_file_lookup_self]
    simp [httl, List.lookup, noneIfNull_of_ne body hbody]
  refine ⟨rfl, ?_, ?_, rfl⟩
  · exact make_request_hit upstream _ e p now₂ iso₂ body hhit
  · rw [log_request_usage]
    simp

/-- C1 witness: a concrete ranking request fetched twice on a fresh
client hits the cache the second time. -/
theorem fetch_twice_idempotent_cached_witness :
    (make_request (fun _ _ => .status 200 (.str "payload"))
        ⟨[], ⟨[], []⟩, 0, 0, 10, 0, 0⟩
        "ios/ranking" [("category", "6014")] true 3 "2025-01-15T10:00:00").1 =
      .ok (.str "payload") ∧
    make_request (fun _ _ => .status 200 (.str "payload"))
        (make_request (fun _ _ => .status 200 (.str "payload"))
          ⟨[], ⟨[], []⟩, 0, 0, 10, 0, 0⟩
          "ios/ranking" [("category", "6014")] true 3 "2025-01-15T10:00:00").2
        "ios/ranking" [("category", "6014")] true 7 "2025-01-15T11:00:00" =
      (.ok (.str "payload"),
        (make_request (fun _ _ => .status 200 (.str "payload"))
          ⟨[], ⟨[], []⟩, 0, 0, 10, 0, 0⟩
          "ios/ranking" [("category", "6014")] true 3 "2025-01-15T10:00:00").2) ∧
    get_monthly_usage
        (make_request (fun _ _ => .status 200 (.str "payload"))
          ⟨[], ⟨[], []⟩, 0, 0, 10, 0, 0⟩
          "ios/ranking" [("category", "6014")] true 3 "2025-01-15T10:00:00").2.usage_log
        ("2025-01-15T10:00:00".take 7) =
      get_monthly_usage ⟨[], []⟩ ("2025-01-15T10:00:00".take 7) + 1 ∧
    (make_request (fun _ _ => .status 200 (.str "payload"))
        ⟨[], ⟨[], []⟩, 0, 0, 10, 0, 0⟩
        "ios/ranking" [("category", "6014")] true 3 "2025-01-15T10:00:00").2.upstream_calls =
      0 + 1 :=
  fetch_twice_idempotent_cached (fun _ _ => .status 200 (.str "payload"))
    ⟨[], ⟨[], []⟩, 0, 0, 10, 0, 0⟩ "ios/ranking" [("category", "6014")]
    3 7 "2025-01-15T10:00:00" "2025-01-15T11:00:00" 200 (.str "payload")
    (by simp) rfl rfl (by decide) (by decide)

/-! ### Sales-estimate argument validation (claim C10) -/

/-- A cache read never produces a `ValueError`. -/
theorem get_from_cache_no_value_error (c : CacheStore) (ttl now : Nat)
    (k msg : String) :
    get_from_cache c ttl now k ≠ .error (.valueError msg) := by
  unfold get_from_cache
  (repeat' split) <;> simp

/-- `_make_request` never raises `ValueError`: its failures are cache
decode/key errors, transport failures, or HTTP status errors. -/
theorem make_request_no_value_error (upstream : Upstream) (st : ClientState)
    (e : String) (p : List (String × String)) (use_cache : Bool)
    (now : Nat) (iso : String) (msg : String) :
    (make_request upstream st e p use_cache now iso).1 ≠
      .error (.valueError msg) := by
  cases use_cache with
  | false =>
    cases hout : upstream e p with
    | transportFailure => simp [make_request, hout]
    | status code body =>
      by_cases hcode : code < 400 <;> simp [make_request, hout, hcode]
  | true =>
    cases hcr : get_from_cache st.cache st.cache_ttl now (get_cache_key e p) with
    | error err =>
      have hne := get_from_cache_no_value_error st.cache st.cache_ttl now
        (get_cache_key e p) msg
      rw [hcr] at hne
      simp [make_request, hcr]
      intro hcontra
      exact hne (by rw [hcontra])
    | ok o =>
      cases o with
      | some d => simp [make_request, hcr]
      | none =>
        cases hout : upstream e p with
        | transportFailure => simp [make_request, hcr, hout]
        | status code body =>
          by_cases hcode : code < 400 <;>
            simp [make_request, hcr, hout, hcode]

/-- C10: `get_sales_estimates` raises `ValueError` exactly when both
`app_ids` and `publisher_ids` are absent/empty, and in that case it
returns with the client state untouched — no network request, no usage
record, no cache write. -/
theorem sales_estimates_value_error_iff (upstream : Upstream)
    (st : ClientState) (app_ids publisher_ids : List Int)
    (device gran : String) (sd ed country : Option String)
    (use_cache : Bool) (today month_ago : String) (now : Nat) (iso : String) :
    ((∃ msg, (get_sales_estimates upstream st app_ids publisher_ids device
        gran sd ed country use_cache today month_ago now iso).1 =
          .error (.valueError msg)) ↔
      (app_ids = [] ∧ publisher_ids = [])) ∧
    (app_ids = [] → publisher_ids = [] →
      get_sales_estimates upstream st app_ids publisher_ids device gran
          sd ed country use_cache today month_ago now iso =
        (.error (.valueError "Either app_ids or publisher_ids required"), st)) := by
  by_cases hc : app_ids = [] ∧ publisher_ids = []
  · refine ⟨⟨fun _ => hc, fun _ => ?_⟩, fun _ _ => ?_⟩
    · exact ⟨"Either app_ids or publisher_ids required",
        by simp [get_sales_estimates, hc]⟩
    · simp [get_sales_estimates, hc]
  · constructor
    · constructor
      · rintro ⟨msg, hmsg⟩
        exfalso
        simp only [get_sales_estimates, if_neg hc] at hmsg
        exact make_request_no_value_error upstream st _ _ use_cache now iso
          msg hmsg
      · intro h; exact absurd h hc
    · intro h1 h2; exact absurd ⟨h1, h2⟩ hc

/-- C10 witness: with both id lists empty the call raises `ValueError`
and touches nothing; the iff holds at this concrete input. -/
theorem sales_estimates_value_error_iff_witness :
    ((∃ msg, (get_sales_estimates (fun _ _ => .status 200 .null)
        ⟨[], ⟨[], []⟩, 0, 0, 10, 0, 0⟩ [] [] "ios" "monthly"
        none none none true "2025-01-15" "2024-12-16" 5
        "2025-01-15T10:00:00").1 = .error (.valueError msg)) ↔
      (([] : List Int) = [] ∧ ([] : List Int) = [])) ∧
    (([] : List Int) = [] → ([] : List Int) = [] →
      get_sales_estimates (fun _ _ => .status 200 .null)
          ⟨[], ⟨[], []⟩, 0, 0, 10, 0, 0⟩ [] [] "ios" "monthly"
          none none none true "2025-01-15" "2024-12-16" 5
          "2025-01-15T10:00:00" =
        (.error (.valueError "Either app_ids or publisher_ids required"),
          ⟨[], ⟨[], []⟩, 0, 0, 10, 0, 0⟩)) :=
  sales_estimates_value_error_iff (fun _ _ => .status 200 .null)
    ⟨[], ⟨[], []⟩, 0, 0, 10, 0, 0⟩ [] [] "ios" "monthly"
    none none none true "2025-01-15" "2024-12-16" 5 "2025-01-15T10:00:00"

/-! ### Two-call contract of `get_top_apps` (claim C6) -/

/-- The ranking and details endpoints never share a cache key: the key
string starts with the endpoint, and the two endpoints differ. -/
theorem ranking_apps_cache_key_ne (p₁ p₂ : List (String × String)) :
    get_cache_key "ios/ranking" p₁ ≠ get_cache_key "ios/apps" p₂ := by
  intro h
  have h2 := congrArg String.data h
  simp [get_cache_key, String.data_append] at h2

/-- A truthy (or absent) `limit` never empties a non-empty id list. -/
theorem sliced_ids_isEmpty_false (ids : List JsonVal) (limit : Option Nat)
    (h : ids ≠ []) : (sliced_ids ids limit).isEmpty = false := by
  cases limit with
  | none => simp [sliced_ids, List.isEmpty_iff, h]
  | some n =>
    by_cases hn : n ≠ 0
    · simp [sliced_ids, hn, List.isEmpty_iff, List.take_eq_nil_iff, h]
    · simp [sliced_ids, hn, List.isEmpty_iff, h]

/-- Looking up a different key right after writing into an empty cache
directory still misses. -/
theorem get_from_cache_store_other_key (k k' : String) (f : CacheFile)
    (ttl now : Nat) (h : (k' == k) = false) :
    get_from_cache (store_file [] k f) ttl now k' = .ok none := by
  unfold store_file get_from_cache
  rw [show List.lookup k' [(k, f)] = none by simp [List.lookup, h]]

/-- `get_app_details` on a cache hit of an object payload: the cached
payload's `"apps"` value comes back, the state untouched. -/
theorem get_app_details_hit (upstream : Upstream) (st : ClientState)
    (app_ids : List JsonVal) (device : String) (now : Nat) (iso : String)
    (fields : List (String × JsonVal))
    (h : get_from_cache st.cache st.cache_ttl now
      (get_cache_key (device ++ "/apps")
        [("app_ids", String.intercalate "," (app_ids.map pyStr))]) =
      .ok (some (.obj fields))) :
    get_app_details upstream st app_ids device true now iso =
      (.ok (dictGet fields "apps" (.arr [])), st) := by
  unfold get_app_details
  simp only [make_request_hit upstream st _ _ now iso (.obj fields) h]

/-- `get_app_details` on a miss with an HTTP success returning an
object payload: one upstream call, and the response's `"apps"` value
comes back. -/
theorem get_app_details_miss_ok (upstream : Upstream) (st : ClientState)
    (app_ids : List JsonVal) (device : String) (use_cache : Bool)
    (now : Nat) (iso : String) (code : Nat)
    (bfields : List (String × JsonVal))
    (hmiss : use_cache = true →
      get_from_cache st.cache st.cache_ttl now
        (get_cache_key (device ++ "/apps")
          [("app_ids", String.intercalate "," (app_ids.map pyStr))]) = .ok none)
    (hup : upstream (device ++ "/apps")
      [("app_ids", String.intercalate "," (app_ids.map pyStr))] =
        .status code (.obj bfields))
    (hcode : code < 400) :
    get_app_details upstream st app_ids device use_cache now iso =
      (.ok (dictGet bfields "apps" (.arr [])),
        { cache := save_to_cache st.cache
            (get_cache_key (device ++ "/apps")
              [("app_ids", String.intercalate "," (app_ids.map pyStr))])
            (.obj bfields) now iso,
          usage_log := log_request st.usage_log (device ++ "/apps") iso,
          request_count := st.request_count + 1,
          last_request_time := now,
          cache_ttl := st.cache_ttl,
          upstream_calls := st.upstream_calls + 1,
          warnings :=
            if get_monthly_usage st.usage_log (iso.take 7) ≥ 2000 then
              st.warnings + 1
            else st.warnings }) := by
  unfold get_app_details
  simp only [make_request_miss_ok upstream st _ _ use_cache now iso code
    (.obj bfields) hmiss hup hcode]

/-- C6: for every category, chart type, date, country and limit (iOS
device), `get_top_apps` with `resolve_details=True` over a non-empty
ranking issues exactly 2 upstream calls — the ranking fetch plus one
batched details call — when the cache is empty, and 0 upstream calls
when both responses are already cached and unexpired (the state is then
entirely untouched). -/
theorem top_apps_two_call_contract (upstream : Upstream)
    (stA stB : ClientState)
    (category chart_type date country today : String) (limit : Option Nat)
    (now : Nat) (iso : String)
    (hcacheA : stA.cache = [])
    (rcode : Nat) (rfields : List (String × JsonVal)) (idsA : List JsonVal)
    (hrank : upstream "ios/ranking"
      [("category", category), ("chart_type", chart_type),
       ("date", date), ("country", country)] = .status rcode (.obj rfields))
    (hrcode : rcode < 400)
    (hridsA : List.lookup "ranking" rfields = some (.arr idsA))
    (hneA : idsA ≠ [])
    (dcode : Nat) (dfields : List (String × JsonVal))
    (hdet : ∀ q, upstream "ios/apps" q = .status dcode (.obj dfields))
    (hdcode : dcode < 400)
    (fields₁ fields₂ : List (String × JsonVal)) (idsB : List JsonVal)
    (hc₁ : get_from_cache stB.cache stB.cache_ttl now
      (get_cache_key "ios/ranking"
        [("category", category), ("chart_type", chart_type),
         ("date", date), ("country", country)]) = .ok (some (.obj fields₁)))
    (hridsB : List.lookup "ranking" fields₁ = some (.arr idsB))
    (hneB : idsB ≠ [])
    (hc₂ : get_from_cache stB.cache stB.cache_ttl now
      (get_cache_key "ios/apps"
        [("app_ids", String.intercalate ","
          (((sliced_ids idsB limit).take (details_cap limit)).map pyStr))]) =
      .ok (some (.obj fields₂))) :
    ((get_top_apps upstream stA category chart_type (some date) country "ios"
        limit true true today now iso).2.upstream_calls =
      stA.upstream_calls + 2 ∧
     ∃ v, (get_top_apps upstream stA category chart_type (some date) country
        "ios" limit true true today now iso).1 = .ok v) ∧
    ((get_top_apps upstream stB category chart_type (some date) country "ios"
        limit true true today now iso).2 = stB ∧
     ∃ v, (get_top_apps upstream stB category chart_type (some date) country
        "ios" limit true true today now iso).1 = .ok v) := by
  constructor
  · -- cold cache: ranking miss + details miss, 2 upstream calls
    have hmiss1 : get_from_cache stA.cache stA.cache_ttl now
        (get_cache_key "ios/ranking"
          [("category", category), ("chart_type", chart_type),
           ("date", date), ("country", country)]) = .ok none := by
      rw [hcacheA]; rfl
    have h1 := make_request_miss_ok upstream stA "ios/ranking"
      [("category", category), ("chart_type", chart_type),
       ("date", date), ("country", country)] true now iso rcode
      (.obj rfields) (fun _ => hmiss1) hrank hrcode
    have hkb : ((get_cache_key "ios/apps"
        [("app_ids", String.intercalate ","
          (((sliced_ids idsA limit).take (details_cap limit)).map pyStr))]) ==
        (get_cache_key "ios/ranking"
          [("category", category), ("chart_type", chart_type),
           ("date", date), ("country", country)])) = false :=
      beq_eq_false_iff_ne.mpr
        (Ne.symm (ranking_apps_cache_key_ne _ _))
    have hmiss2 : get_from_cache
        (save_to_cache stA.cache
          (get_cache_key "ios/ranking"
            [("category", category), ("chart_type", chart_type),
             ("date", date), ("country", country)]) (.obj rfields) now iso)
        stA.cache_ttl now
        (get_cache_key "ios/apps"
          [("app_ids", String.intercalate ","
            (((sliced_ids idsA limit).take (details_cap limit)).map pyStr))]) =
        .ok none := by
      rw [hcacheA]
      exact get_from_cache_store_other_key _ _ _ _ _ hkb
    have h2 := get_app_details_miss_ok upstream
      { cache := save_to_cache stA.cache
          (get_cache_key "ios/ranking"
            [("category", category), ("chart_type", chart_type),
             ("date", date), ("country", country)]) (.obj rfields) now iso,
        usage_log := log_request stA.usage_log "ios/ranking" iso,
        request_count := stA.request_count + 1,
        last_request_time := now,
        cache_ttl := stA.cache_ttl,
        upstream_calls := stA.upstream_calls + 1,
        warnings :=
          if get_monthly_usage stA.usage_log (iso.take 7) ≥ 2000 then
            stA.warnings + 1
          else stA.warnings }
      ((sliced_ids idsA limit).take (details_cap limit)) "ios" true now iso
      dcode dfields (fun _ => hmiss2) (hdet _) hdcode
    simp only [get_top_apps, Option.getD_some]
    rw [show ("ios" : String) ++ "/ranking" = "ios/ranking" from rfl, h1]
    simp only [dictGet, hridsA, Option.getD_some, Bool.true_and,
      sliced_ids_isEmpty_false idsA limit hneA, Bool.not_false, if_true]
    rw [h2]
    exact ⟨rfl, _, rfl⟩
  · -- warm cache: two hits, state untouched
    have h1 := make_request_hit upstream stB "ios/ranking"
      [("category", category), ("chart_type", chart_type),
       ("date", date), ("country", country)] now iso (.obj fields₁) hc₁
    have h2 := get_app_details_hit upstream stB
      ((sliced_ids idsB limit).take (details_cap limit)) "ios" now iso
      fields₂ hc₂
    simp only [get_top_apps, Option.getD_some]
    rw [show ("ios" : String) ++ "/ranking" = "ios/ranking" from rfl, h1]
    simp only [dictGet, hridsB, Option.getD_some, Bool.true_and,
      sliced_ids_isEmpty_false idsB limit hneB, Bool.not_false, if_true]
    rw [h2]
    exact ⟨rfl, _, rfl⟩

/-- C6 witness: a one-element ranking with `limit = 10`, run once on a
cold client and once on a client holding both cache entries. -/
theorem top_apps_two_call_contract_witness :
    ((get_top_apps
        (fun e _ => if e = "ios/ranking" then
          .status 200 (.obj [("ranking", .arr [.num 1])])
        else .status 200 (.obj [("apps", .arr [.obj []])]))
        ⟨[], ⟨[], []⟩, 0, 0, 10, 0, 0⟩ "6014" "topgrossingapplications"
        (some "2025-01-15") "US" "ios" (some 10) true true
        "2025-01-20" 5 "2025-01-20T09:00:00").2.upstream_calls = 0 + 2 ∧
     ∃ v, (get_top_apps
        (fun e _ => if e = "ios/ranking" then
          .status 200 (.obj [("ranking", .arr [.num 1])])
        else .status 200 (.obj [("apps", .arr [.obj []])]))
        ⟨[], ⟨[], []⟩, 0, 0, 10, 0, 0⟩ "6014" "topgrossingapplications"
        (some "2025-01-15") "US" "ios" (some 10) true true
        "2025-01-20" 5 "2025-01-20T09:00:00").1 = .ok v) ∧
    ((get_top_apps
        (fun e _ => if e = "ios/ranking" then
          .status 200 (.obj [("ranking", .arr [.num 1])])
        else .status 200 (.obj [("apps", .arr [.obj []])]))
        ⟨[(get_cache_key "ios/ranking"
            [("category", "6014"), ("chart_type", "topgrossingapplications"),
             ("date", "2025-01-15"), ("country", "US")],
           ⟨3, .ok (.obj [("cached_at", .str "t"),
             ("data", .obj [("ranking", .arr [.num 1])])])⟩),
          (get_cache_key "ios/apps"
            [("app_ids", String.intercalate ","
              (((sliced_ids [.num 1] (some 10)).take
                (details_cap (some 10))).map pyStr))],
           ⟨3, .ok (.obj [("cached_at", .str "t"),
             ("data", .obj [("apps", .arr [.obj []])])])⟩)],
          ⟨[], []⟩, 0, 0, 10, 0, 0⟩ "6014" "topgrossingapplications"
        (some "2025-01-15") "US" "ios" (some 10) true true
        "2025-01-20" 5 "2025-01-20T09:00:00").2 =
      ⟨[(get_cache_key "ios/ranking"
            [("category", "6014"), ("chart_type", "topgrossingapplications"),
             ("date", "2025-01-15"), ("country", "US")],
           ⟨3, .ok (.obj [("cached_at", .str "t"),
             ("data", .obj [("ranking", .arr [.num 1])])])⟩),
          (get_cache_key "ios/apps"
            [("app_ids", String.intercalate ","
              (((sliced_ids [.num 1] (some 10)).take
                (details_cap (some 10))).map pyStr))],
           ⟨3, .ok (.obj [("cached_at", .str "t"),
             ("data", .obj [("apps", .arr [.obj []])])])⟩)],
          ⟨[], []⟩, 0, 0, 10, 0, 0⟩ ∧
     ∃ v, (get_top_apps
        (fun e _ => if e = "ios/ranking" then
          .status 200 (.obj [("ranking", .arr [.num 1])])
        else .status 200 (.obj [("apps", .arr [.obj []])]))
        ⟨[(get_cache_key "ios/ranking"
            [("category", "6014"), ("chart_type", "topgrossingapplications"),
             ("date", "2025-01-15"), ("country", "US")],
           ⟨3, .ok (.obj [("cached_at", .str "t"),
             ("data", .obj [("ranking", .arr [.num 1])])])⟩),
          (get_cache_key "ios/apps"
            [("app_ids", String.intercalate ","
              (((sliced_ids [.num 1] (some 10)).take
                (details_cap (some 10))).map pyStr))],
           ⟨3, .ok (.obj [("cached_at", .str "t"),
             ("data", .obj [("apps", .arr [.obj []])])])⟩)],
          ⟨[], []⟩, 0, 0, 10, 0, 0⟩ "6014" "topgrossingapplications"
        (some "2025-01-15") "US" "ios" (some 10) true true
        "2025-01-20" 5 "2025-01-20T09:00:00").1 = .ok v) :=
  top_apps_two_call_contract _ _ _ "6014" "topgrossingapplications"
    "2025-01-15" "US" "2025-01-20" (some 10) 5 "2025-01-20T09:00:00"
    rfl 200 [("ranking", .arr [.num 1])] [.num 1] rfl (by decide)
    rfl (by simp) 200 [("apps", .arr [.obj []])]
    (fun q => rfl) (by decide)
    [("ranking", .arr [.num 1])] [("apps", .arr [.obj []])]
    [.num 1]
    (by simp [get_from_cache, List.lookup, noneIfNull])
    rfl (by simp)
    (by
      have hne : (get_cache_key "ios/apps"
          [("app_ids", String.intercalate ","
            (List.take (details_cap (some 10))
              ((sliced_ids [JsonVal.num 1] (some 10)).map pyStr)))] ==
          get_cache_key "ios/ranking"
            [("category", "6014"), ("chart_type", "topgrossingapplications"),
             ("date", "2025-01-15"), ("country", "US")]) = false :=
        beq_eq_false_iff_ne.mpr (Ne.symm (ranking_apps_cache_key_ne _ _))
      simp [get_from_cache, List.lookup, hne, noneIfNull])

/-! ### Batched sales estimates (claims C8, C9) -/

/-- The batch count is `ceil(len/100)`, like Python's
`range(0, len, 100)`. -/
theorem batches_of_100_length (l : List Int) :
    (batches_of_100 l).length = (l.length + 99) / 100 := by
  induction l using batches_of_100.induct with
  | case1 =>
    rw [batches_of_100]
    simp
  | case2 l h ih =>
    rw [batches_of_100, dif_neg h]
    have hl : 0 < l.length := List.length_pos.mpr h
    simp only [List.length_cons, ih, List.length_drop]
    omega

/-- Folding over a `flatMap` = folding batch-wise. -/
theorem foldl_flatMap {α β γ : Type} (f : γ → List β) (g : α → β → α)
    (l : List γ) (init : α) :
    (l.flatMap f).foldl g init =
      l.foldl (fun a c => (f c).foldl g a) init := by
  induction l generalizing init with
  | nil => rfl
  | cons c l ih => simp [List.foldl_append, ih]

/-- The tagged record stream that actually reaches the accumulator:
each successful call contributes its records tagged with the period,
each failed call contributes nothing. -/
def succeeded_records (call : String → List Int → Except Unit SalesResponse)
    (issued : List (String × List Int)) : List (String × SalesRecord) :=
  issued.flatMap (fun pb =>
    match call pb.1 pb.2 with
    | .error _ => []
    | .ok resp => resp.records.map (fun r => (pb.1, r)))

/-- Aggregating a tagged record stream record-by-record. -/
def aggregate (prs : List (String × SalesRecord)) : List (Int × PeriodTotals) :=
  prs.foldl (fun acc pr => apply_record pr.1 acc pr.2) []

/-- The request loop's fold equals aggregating the succeeded-record
stream, for any issued request list. -/
theorem fold_issued_eq (call : String → List Int → Except Unit SalesResponse)
    (issued : List (String × List Int)) :
    issued.foldl (fun acc pb =>
      match call pb.1 pb.2 with
      | .error _ => acc
      | .ok resp => resp.records.foldl
          (fun acc' r => apply_record pb.1 acc' r) acc) [] =
    aggregate (succeeded_records call issued) := by
  unfold aggregate succeeded_records
  rw [foldl_flatMap]
  congr 1
  funext a pb
  cases hc : call pb.1 pb.2 with
  | error e => simp
  | ok resp => simp [List.foldl_map]

/-- `fetch_sales_estimates` aggregates exactly the records of the
batches that succeeded. -/
theorem fetch_sales_results_eq
    (call : String → List Int → Except Unit SalesResponse) (ids : List Int) :
    (fetch_sales_estimates call ids).1 =
      aggregate (succeeded_records call (fetch_sales_estimates call ids).2) :=
  fold_issued_eq call
    (["1m", "3m", "6m"].flatMap (fun p => (batches_of_100 ids).map (fun b => (p, b))))

/-- Reading the `defaultdict` update: the updated app gains the
contribution (starting from the zero entry when absent), every other
app is untouched. -/
theorem lookup_upd_results (res : List (Int × PeriodTotals)) (b : Int)
    (p : String) (dl rev : Int) (a : Int) :
    List.lookup a (upd_results res b p dl rev) =
      if a = b then
        some (((List.lookup a res).getD PeriodTotals.zero).add p dl rev)
      else List.lookup a res := by
  induction res with
  | nil =>
    by_cases h : a = b
    · subst h; simp [upd_results, List.lookup]
    · simp [upd_results, List.lookup, h, beq_eq_false_iff_ne.mpr h]
  | cons hd tl ih =>
    obtain ⟨c, t⟩ := hd
    by_cases hcb : c = b
    · subst hcb
      by_cases hac : a = c
      · subst hac; simp [upd_results, List.lookup]
      · simp [upd_results, List.lookup, hac, beq_eq_false_iff_ne.mpr hac]
    · by_cases hac : a = c
      · subst hac
        have hab : ¬ a = b := fun h => hcb h
        simp [upd_results, hcb, List.lookup, hab]
      · simp [upd_results, hcb, List.lookup, beq_eq_false_iff_ne.mpr hac, ih]

/-- Reading one record's processing: a record with a truthy aid updates
that app's entry; everything else is untouched.  (`a ≠ 0` because an
aid of 0 is falsy in Python and skipped.) -/
theorem lookup_apply_record (p : String) (res : List (Int × PeriodTotals))
    (r : SalesRecord) (a : Int) (ha : a ≠ 0) :
    List.lookup a (apply_record p res r) =
      if r.aid = some a then
        some (((List.lookup a res).getD PeriodTotals.zero).add p
          (r.iu.getD 0) (Int.tdiv (r.ir.getD 0) 100))
      else List.lookup a res := by
  unfold apply_record
  split
  · next b heq =>
    rw [heq]
    by_cases hb : b ≠ 0
    · rw [if_pos hb, lookup_upd_results]
      by_cases hab : a = b
      · subst hab; simp
      · have : ¬ (some b = some a) := by simp; exact fun h => hab h.symm
        simp [hab, this]
    · push_neg at hb
      subst hb
      have : ¬ (some (0 : Int) = some a) := by simp; exact fun h => ha h.symm
      simp [this]
  · next heq =>
    rw [heq]
    simp

/-- Contribution of a tagged record stream to one app's totals,
starting from a given accumulator entry. -/
def totals_from (t₀ : PeriodTotals) (a : Int)
    (prs : List (String × SalesRecord)) : PeriodTotals :=
  (prs.filter (fun pr => pr.2.aid == some a)).foldl
    (fun t pr => t.add pr.1 (pr.2.iu.getD 0) (Int.tdiv (pr.2.ir.getD 0) 100))
    t₀

/-- Characterization of the aggregation fold, app by app. -/
theorem lookup_foldl_apply (prs : List (String × SalesRecord))
    (acc : List (Int × PeriodTotals)) (a : Int) (ha : a ≠ 0) :
    List.lookup a
      (prs.foldl (fun acc' pr => apply_record pr.1 acc' pr.2) acc) =
      match List.lookup a acc with
      | some t₀ => some (totals_from t₀ a prs)
      | none =>
        if prs.any (fun pr => pr.2.aid == some a) then
          some (totals_from PeriodTotals.zero a prs)
        else none := by
  induction prs generalizing acc with
  | nil =>
    cases h : List.lookup a acc with
    | some t₀ => simp [h, totals_from]
    | none => simp [h]
  | cons pr prs ih =>
    rw [List.foldl_cons, ih, lookup_apply_record _ _ _ _ ha]
    by_cases hm : pr.2.aid = some a
    · have hbm : (pr.2.aid == some a) = true := beq_iff_eq.mpr hm
      simp only [if_pos hm]
      cases h : List.lookup a acc with
      | some t₀ => simp [h, totals_from, hbm]
      | none => simp [h, totals_from, hbm]
    · have hbm : (pr.2.aid == some a) = false := beq_eq_false_iff_ne.mpr hm
      simp only [if_neg hm]
      cases h : List.lookup a acc with
      | some t₀ => simp [h, totals_from, List.filter_cons, hbm]
      | none =>
        simp [h, totals_from, List.filter_cons, hm]
        rw [hbm, Bool.false_or]

/-- Characterization of `aggregate`: an app appears in the result iff
some succeeded record carries its (truthy) aid, and its totals are the
fold of its own records. -/
theorem lookup_aggregate (prs : List (String × SalesRecord)) (a : Int)
    (ha : a ≠ 0) :
    List.lookup a (aggregate prs) =
      if prs.any (fun pr => pr.2.aid == some a) then
        some (totals_from PeriodTotals.zero a prs)
      else none := by
  unfold aggregate
  rw [lookup_foldl_apply prs [] a ha]
  rfl

/-- Per period, the issued-request list holds exactly one request per
batch. -/
theorem issued_filter_period (bs : List (List Int)) (p : String)
    (hp : p = "1m" ∨ p = "3m" ∨ p = "6m") :
    ((["1m", "3m", "6m"].flatMap (fun q => bs.map (fun b => (q, b)))).filter
      (fun pb => pb.1 == p)).length = bs.length := by
  rcases hp with h | h | h <;> subst h <;>
    simp [List.flatMap_cons, List.filter_append, List.filter_map,
      Function.comp_def]

/-- Replacing every failed call by an empty success changes nothing in
the aggregated result: a failed batch contributes exactly nothing, and
the remaining batches are still processed. -/
theorem fetch_error_as_empty
    (call : String → List Int → Except Unit SalesResponse) (ids : List Int) :
    (fetch_sales_estimates call ids).1 =
      (fetch_sales_estimates
        (fun p b => match call p b with
          | .error _ => .ok (.asList [])
          | .ok r => .ok r) ids).1 := by
  have hsucc : ∀ issued : List (String × List Int),
      succeeded_records call issued =
        succeeded_records (fun p b => match call p b with
          | .error _ => .ok (.asList [])
          | .ok r => .ok r) issued := by
    intro issued
    unfold succeeded_records
    induction issued with
    | nil => rfl
    | cons pb t ih =>
      rw [List.flatMap_cons, List.flatMap_cons, ih]
      cases hc : call pb.1 pb.2 with
      | error e => simp [hc, SalesResponse.records]
      | ok resp => simp [hc]
  rw [fetch_sales_results_eq, fetch_sales_results_eq]
  exact congrArg aggregate (hsucc _)

/-- C8: `fetch_sales_estimates` partitions the ids into batches of at
most 100 (250 ids give exactly 3), issues one request per batch per
period, survives any batch's failure by skipping exactly that batch's
contribution (a failed batch behaves like an empty success, the other
batches still count), and an app id appears in the returned dict iff
some succeeded batch returned a record for it — so a caller can tell a
partial result from a complete one by comparing returned ids against
requested ids. -/
theorem sales_batching_partial_failure
    (call : String → List Int → Except Unit SalesResponse) (ids : List Int) :
    (ids.length = 250 → (batches_of_100 ids).length = 3) ∧
    (∀ p, p = "1m" ∨ p = "3m" ∨ p = "6m" →
      (((fetch_sales_estimates call ids).2).filter
        (fun pb => pb.1 == p)).length = (batches_of_100 ids).length) ∧
    ((fetch_sales_estimates call ids).1 =
      (fetch_sales_estimates
        (fun p b => match call p b with
          | .error _ => .ok (.asList [])
          | .ok r => .ok r) ids).1) ∧
    (∀ a : Int, a ≠ 0 →
      ((∃ t, List.lookup a (fetch_sales_estimates call ids).1 = some t) ↔
        (succeeded_records call (fetch_sales_estimates call ids).2).any
          (fun pr => pr.2.aid == some a) = true)) := by
  refine ⟨?_, ?_, ?_, ?_⟩
  · intro h
    rw [batches_of_100_length, h]
  · intro p hp
    exact issued_filter_period (batches_of_100 ids) p hp
  · exact fetch_error_as_empty call ids
  · intro a ha
    rw [fetch_sales_results_eq, lookup_aggregate _ _ ha]
    by_cases hany : (succeeded_records call
        (fetch_sales_estimates call ids).2).any
          (fun pr => pr.2.aid == some a) = true
    · simp [hany]
    · simp [hany]

/-- C8 witness: one batch of one id, with the `"1m"` call failing and
the other periods succeeding. -/
theorem sales_batching_partial_failure_witness :
    (([(7 : Int)].length = 250 → (batches_of_100 [7]).length = 3) ∧
    (∀ p, p = "1m" ∨ p = "3m" ∨ p = "6m" →
      (((fetch_sales_estimates
          (fun p _ => if p = "1m" then .error ()
            else .ok (.asList [⟨some 7, some 5, some 12345⟩])) [7]).2).filter
        (fun pb => pb.1 == p)).length = (batches_of_100 [7]).length) ∧
    ((fetch_sales_estimates
        (fun p _ => if p = "1m" then .error ()
          else .ok (.asList [⟨some 7, some 5, some 12345⟩])) [7]).1 =
      (fetch_sales_estimates
        (fun p b =>
          match (fun p _ => if p = "1m" then Except.error ()
            else .ok (.asList [⟨some 7, some 5, some 12345⟩])) p b with
          | .error _ => .ok (.asList [])
          | .ok r => .ok r) [7]).1) ∧
    (∀ a : Int, a ≠ 0 →
      ((∃ t, List.lookup a (fetch_sales_estimates
          (fun p _ => if p = "1m" then .error ()
            else .ok (.asList [⟨some 7, some 5, some 12345⟩])) [7]).1 = some t) ↔
        (succeeded_records
          (fun p _ => if p = "1m" then .error ()
            else .ok (.asList [⟨some 7, some 5, some 12345⟩]))
          (fetch_sales_estimates
            (fun p _ => if p = "1m" then .error ()
              else .ok (.asList [⟨some 7, some 5, some 12345⟩])) [7]).2).any
          (fun pr => pr.2.aid == some a) = true))) :=
  sales_batching_partial_failure
    (fun p _ => if p = "1m" then .error ()
      else .ok (.asList [⟨some 7, some 5, some 12345⟩])) [7]

/-! ### Revenue conversion (claim C9) -/

/-- The revenue field belonging to a period key. -/
def PeriodTotals.rev (t : PeriodTotals) (p : String) : Int :=
  if p = "1m" then t.revenue_1m
  else if p = "3m" then t.revenue_3m
  else if p = "6m" then t.revenue_6m
  else 0

/-- Spec-side sum: one app's revenue contributions for one period,
each record's `ir` cents converted by truncating division by 100. -/
def period_revenue (a : Int) (p : String)
    (prs : List (String × SalesRecord)) : Int :=
  ((prs.filter (fun pr => pr.1 == p && pr.2.aid == some a)).map
    (fun pr => Int.tdiv (pr.2.ir.getD 0) 100)).sum

/-- Adding to a period adds to that period's revenue field. -/
theorem rev_add_self (t : PeriodTotals) (p : String)
    (hp : p = "1m" ∨ p = "3m" ∨ p = "6m") (dl rev : Int) :
    (t.add p dl rev).rev p = t.rev p + rev := by
  rcases hp with h | h | h <;> subst h <;>
    simp [PeriodTotals.add, PeriodTotals.rev]

/-- Adding to a different period leaves a period's revenue field
unchanged. -/
theorem rev_add_other (t : PeriodTotals) (p q : String)
    (hp : p = "1m" ∨ p = "3m" ∨ p = "6m") (hq : q ≠ p) (dl rev : Int) :
    (t.add q dl rev).rev p = t.rev p := by
  rcases hp with h | h | h <;> subst h <;>
    unfold PeriodTotals.add PeriodTotals.rev <;>
    by_cases h1 : q = "1m" <;> by_cases h3 : q = "3m" <;>
      by_cases h6 : q = "6m" <;> simp_all

/-- The fold's revenue field is the record-wise converted sum. -/
theorem totals_from_rev (a : Int) (p : String)
    (hp : p = "1m" ∨ p = "3m" ∨ p = "6m")
    (prs : List (String × SalesRecord)) (t₀ : PeriodTotals) :
    (totals_from t₀ a prs).rev p = t₀.rev p + period_revenue a p prs := by
  induction prs generalizing t₀ with
  | nil => simp [totals_from, period_revenue]
  | cons pr prs ih =>
    by_cases hm : pr.2.aid = some a
    · have hbm : (pr.2.aid == some a) = true := beq_iff_eq.mpr hm
      have hstep : totals_from t₀ a (pr :: prs) =
          totals_from (t₀.add pr.1 (pr.2.iu.getD 0)
            (Int.tdiv (pr.2.ir.getD 0) 100)) a prs := by
        unfold totals_from
        rw [List.filter_cons]
        simp [hbm]
      rw [hstep, ih]
      by_cases hq : pr.1 = p
      · subst hq
        rw [rev_add_self _ _ hp]
        have hper : period_revenue a pr.1 (pr :: prs) =
            Int.tdiv (pr.2.ir.getD 0) 100 + period_revenue a pr.1 prs := by
          unfold period_revenue
          rw [List.filter_cons]
          simp [hbm]
        rw [hper]
        omega
      · rw [rev_add_other _ _ _ hp hq]
        have hper : period_revenue a p (pr :: prs) =
            period_revenue a p prs := by
          unfold period_revenue
          rw [List.filter_cons]
          have hqb : (pr.1 == p) = false := beq_eq_false_iff_ne.mpr hq
          simp [hqb]
        rw [hper]
    · have hbm : (pr.2.aid == some a) = false := beq_eq_false_iff_ne.mpr hm
      have h1 : totals_from t₀ a (pr :: prs) = totals_from t₀ a prs := by
        unfold totals_from
        rw [List.filter_cons]
        simp [hbm]
      have h2 : period_revenue a p (pr :: prs) = period_revenue a p prs := by
        unfold period_revenue
        rw [List.filter_cons]
        simp [hbm]
      rw [h1, h2, ih]

/-- C9: each upstream revenue value `ir` (cents) is converted to whole
currency units by truncating integer division by 100 at the record
level (a record with `ir` 12345 contributes 123), and an app's revenue
total for a period is the sum of these converted values over all
records of the batches that succeeded. -/
theorem revenue_integer_division
    (call : String → List Int → Except Unit SalesResponse) (ids : List Int)
    (a : Int) (t : PeriodTotals) (ha : a ≠ 0)
    (hl : List.lookup a (fetch_sales_estimates call ids).1 = some t) :
    (∀ p, p = "1m" ∨ p = "3m" ∨ p = "6m" →
      t.rev p = period_revenue a p
        (succeeded_records call (fetch_sales_estimates call ids).2)) ∧
    apply_record "1m" [] ⟨some 7, some 0, some 12345⟩ =
      [(7, { downloads_1m := 0, revenue_1m := 123, downloads_3m := 0,
             revenue_3m := 0, downloads_6m := 0, revenue_6m := 0 })] := by
  constructor
  · intro p hp
    rw [fetch_sales_results_eq, lookup_aggregate _ _ ha] at hl
    by_cases hany : (succeeded_records call
        (fetch_sales_estimates call ids).2).any
          (fun pr => pr.2.aid == some a) = true
    · rw [if_pos hany] at hl
      have ht : t = totals_from PeriodTotals.zero a
          (succeeded_records call (fetch_sales_estimates call ids).2) :=
        (Option.some.injEq _ _).mp hl.symm
      have hz : PeriodTotals.zero.rev p = 0 := by
        rcases hp with h | h | h <;> subst h <;> rfl
      rw [ht, totals_from_rev a p hp, hz]
      omega
    · rw [if_neg hany] at hl
      exact absurd hl (by simp)
  · rfl

/-- C9 witness: one id, each of the three period calls returning one
record worth 12345 cents, whose totals read back as 123 units per
period. -/
theorem revenue_integer_division_witness :
    ((∀ p, p = "1m" ∨ p = "3m" ∨ p = "6m" →
      PeriodTotals.rev
        { downloads_1m := 5, revenue_1m := 123, downloads_3m := 5,
          revenue_3m := 123, downloads_6m := 5, revenue_6m := 123 } p =
        period_revenue 7 p
          (succeeded_records
            (fun _ _ => Except.ok (.asList [⟨some 7, some 5, some 12345⟩]))
            (fetch_sales_estimates
              (fun _ _ => Except.ok (.asList [⟨some 7, some 5, some 12345⟩]))
              [7]).2)) ∧
    apply_record "1m" [] ⟨some 7, some 0, some 12345⟩ =
      [(7, { downloads_1m := 0, revenue_1m := 123, downloads_3m := 0,
             revenue_3m := 0, downloads_6m := 0, revenue_6m := 0 })]) := by
  have htake : List.take 100 [(7 : Int)] = [7] :=
    List.take_of_length_le (by norm_num)
  have hdrop : List.drop 100 [(7 : Int)] = [] :=
    List.drop_eq_nil_of_le (by norm_num)
  have hnil : batches_of_100 [] = [] := by
    rw [batches_of_100, dif_pos rfl]
  have hb : batches_of_100 [7] = [[7]] := by
    rw [batches_of_100, dif_neg (by simp), htake, hdrop, hnil]
  have hl : List.lookup 7 (fetch_sales_estimates
      (fun _ _ => Except.ok (.asList [⟨some 7, some 5, some 12345⟩]))
      [(7 : Int)]).1 =
      some { downloads_1m := 5, revenue_1m := 123, downloads_3m := 5,
             revenue_3m := 123, downloads_6m := 5, revenue_6m := 123 } := by
    simp [fetch_sales_estimates, hb, apply_record, upd_results,
      PeriodTotals.add, PeriodTotals.zero, SalesResponse.records,
      List.lookup, show Int.tdiv 12345 100 = 123 from rfl]
  exact revenue_integer_division
    (fun _ _ => Except.ok (.asList [⟨some 7, some 5, some 12345⟩]))
    [7] 7 _ (by decide) hl

end SensorTower
